import Mathlib

/-!
Shallow embedding of the Gemma3n AI Explainer client core: the `useApiQuery`
query workflow and `useQueryContent` content-fetch workflow (src/unnamed/part_000)
and the `AppShell` navigation handlers (src/electron-app/src/pages/AppShell.tsx).

Asynchronous collaborator calls (offline cache, API client, health check,
submission with progress callbacks) are parametrised by an environment record
giving each awaited call's outcome; the React `setState` sequence is modelled
by explicit state passing, and thrown JS errors by `Except`.  The Task Tracker
(`use-task-tracker`) is a collaborator of this repository whose source is not
under src/; its operations are modelled from the spec's contract (see the doc
comments below).
-/

namespace AIExplainer

/-- Opaque content payload (`ContentResponse`); its structure is owned by the
API-client collaborator, so we model it as an abstract token. -/
abbrev ContentResponse := String

/-- A thrown JS error, as classified by the catch blocks in the source:
an `APIClientError` carrying a status code and message, a generic `Error`
carrying a message, or a thrown value that is not an `Error` instance. -/
inductive JsError where
  | apiClientError (statusCode : Nat) (message : String)
  | generic (message : String)
  | nonError
deriving DecidableEq, Repr

/-- Error-message derivation of the catch block of `submitQuery`
(src/unnamed/part_000 lines 208-218). -/
def deriveErrorMessage : JsError → String
  | JsError.apiClientError code msg =>
      if code = 0 then
        s!"Connection failed: {msg}. Is the backend server running on the correct port?"
      else
        s!"Backend error ({code}): {msg}"
  | JsError.generic msg => msg
  | JsError.nonError => "An unexpected error occurred"

/-- Test whether `pat` is an initial segment of `s`. -/
def listStartsWith : List Char → List Char → Bool
  | _, [] => true
  | [], _ :: _ => false
  | a :: as, b :: bs => a == b && listStartsWith as bs

/-- Test whether `pat` occurs contiguously inside `s`. -/
def listHasSub : List Char → List Char → Bool
  | [], pat => pat.isEmpty
  | a :: as, pat => listStartsWith (a :: as) pat || listHasSub as pat

/-- JS `String.prototype.includes`, used by the progress-callback classifier. -/
def strContains (s pat : String) : Bool :=
  listHasSub s.data pat.data

/-- Task status, from `types/api` as consumed by the workflow. -/
inductive TaskStatus where
  | PENDING
  | IN_PROGRESS
  | COMPLETED
  | FAILED
deriving DecidableEq, Repr

/-- Content task type, from `types/api`. -/
inductive ContentTaskType where
  | LESSONS
  | RELATED_QUESTIONS
  | FLASHCARDS
  | QUIZ
deriving DecidableEq, Repr

/-- Modelled from the spec: a task record of the Task Tracker collaborator
(`use-task-tracker`, not under src/): `{status, progressPercent, failureReason?}`. -/
structure TaskRecord where
  status : TaskStatus
  progress : Nat
  failureReason : Option String
deriving DecidableEq, Repr

/-- Modelled from the spec: the Task Tracker collaborator's state, a mapping
from content-task-type to an optional task record plus the tracked session id. -/
structure TaskTracker where
  sessionId : Option String
  lessons : Option TaskRecord
  relatedQuestions : Option TaskRecord
  flashcards : Option TaskRecord
  quiz : Option TaskRecord
deriving DecidableEq, Repr

/-- Modelled from the spec: the Task Tracker's initial empty state
(no session, no task records). -/
def TaskTracker.init : TaskTracker :=
  { sessionId := none, lessons := none, relatedQuestions := none,
    flashcards := none, quiz := none }

/-- The `getTaskByType` operation of the Task Tracker contract. -/
def getTaskByType (t : TaskTracker) : ContentTaskType → Option TaskRecord
  | ContentTaskType.LESSONS => t.lessons
  | ContentTaskType.RELATED_QUESTIONS => t.relatedQuestions
  | ContentTaskType.FLASHCARDS => t.flashcards
  | ContentTaskType.QUIZ => t.quiz

/-- Store one task record in the tracker. -/
def setTask (t : TaskTracker) : ContentTaskType → Option TaskRecord → TaskTracker
  | ContentTaskType.LESSONS, r => { t with lessons := r }
  | ContentTaskType.RELATED_QUESTIONS, r => { t with relatedQuestions := r }
  | ContentTaskType.FLASHCARDS, r => { t with flashcards := r }
  | ContentTaskType.QUIZ, r => { t with quiz := r }

/-- One Task Tracker operation invoked by the workflow; the workflow's runs
record the exact sequence of these calls. -/
inductive TrackerCall where
  | startTracking (sessionId : String)
  | updateTaskProgress (taskType : ContentTaskType) (percent : Nat)
  | markTaskCompleted (taskType : ContentTaskType)
  | markTaskFailed (taskType : ContentTaskType) (reason : String)
  | reset
deriving DecidableEq, Repr

/-- Modelled from the spec: the effect of each Task Tracker operation.
`startTracking` creates fresh PENDING records for all four task types;
`updateTaskProgress` stores an IN_PROGRESS record at the given percent;
`markTaskCompleted` stores a COMPLETED record at 100; `markTaskFailed`
stores a FAILED record keeping the previous percent and recording the
reason; `reset` restores the initial empty state. -/
def applyCall (t : TaskTracker) : TrackerCall → TaskTracker
  | TrackerCall.startTracking sid =>
      { sessionId := some sid,
        lessons := some ⟨TaskStatus.PENDING, 0, none⟩,
        relatedQuestions := some ⟨TaskStatus.PENDING, 0, none⟩,
        flashcards := some ⟨TaskStatus.PENDING, 0, none⟩,
        quiz := some ⟨TaskStatus.PENDING, 0, none⟩ }
  | TrackerCall.updateTaskProgress ty p =>
      setTask t ty (some ⟨TaskStatus.IN_PROGRESS, p, none⟩)
  | TrackerCall.markTaskCompleted ty =>
      setTask t ty (some ⟨TaskStatus.COMPLETED, 100, none⟩)
  | TrackerCall.markTaskFailed ty reason =>
      setTask t ty (some ⟨TaskStatus.FAILED,
        ((getTaskByType t ty).map TaskRecord.progress).getD 0, some reason⟩)
  | TrackerCall.reset => TaskTracker.init

/-- Tracker state together with the log of operations invoked so far. -/
abbrev TrackerAcc := TaskTracker × List TrackerCall

/-- Invoke one tracker operation: apply its effect and log it. -/
def emit (tc : TrackerAcc) (c : TrackerCall) : TrackerAcc :=
  (applyCall tc.1 c, tc.2 ++ [c])

/-- The `QueryState` record owned by `useApiQuery`. -/
structure QueryState where
  loading : Bool
  error : Option String
  queryId : Option String
  lessons : Option ContentResponse
  relatedQuestions : Option ContentResponse
  progress : Option String
deriving DecidableEq, Repr

/-- Initial `QueryState` (src/unnamed/part_000 lines 25-32). -/
def QueryState.init : QueryState :=
  { loading := false, error := none, queryId := none, lessons := none,
    relatedQuestions := none, progress := none }

/-- The `QueryRequest` submitted to the backend (lines 100-103). -/
structure QueryRequest where
  query : String
  user_id : Option String
deriving DecidableEq, Repr

/-- Resolved value of `submitQueryAndWait`: `{queryId, lessons?, relatedQuestions?}`. -/
structure SubmitResult where
  queryId : Option String
  lessons : Option ContentResponse
  relatedQuestions : Option ContentResponse
deriving DecidableEq, Repr

/-- Outcomes of the awaited collaborator calls made by one `submitQuery` run:
each field gives the result (or thrown error) of the corresponding call, and
`progressMessages` the sequence of texts passed to the progress callback
before `submitQueryAndWait` settles.  `now` is the timestamp used for the
tracking-session id. -/
structure Env where
  getCachedQueryId : Except JsError (Option String)
  getLessons : Except JsError ContentResponse
  getRelatedQuestions : Except JsError ContentResponse
  healthCheck : Except JsError Unit
  now : Nat
  progressMessages : List String
  submitQueryAndWait : Except JsError SubmitResult
  saveQueryMapping : Except JsError Unit

/-- Which collaborators a run invoked: the request passed to
`submitQueryAndWait` (if it was invoked), the query/id pair passed to
`saveQueryMapping` (if it was invoked), and whether the staged
flashcards/quiz timers were scheduled. -/
structure Flags where
  submitted : Option QueryRequest
  saved : Option (String × String)
  timersScheduled : Bool
deriving DecidableEq, Repr

/-- Final observation of one `submitQuery` run: the committed `QueryState`,
the Task Tracker state and call log, the collaborator flags, and the error
(if any) that reached the catch block. -/
structure Outcome where
  state : QueryState
  tracker : TaskTracker
  trackerCalls : List TrackerCall
  submitted : Option QueryRequest
  saved : Option (String × String)
  timersScheduled : Bool
  erroredWith : Option JsError
deriving Repr

/-- JS truthiness of a `string | null | undefined` value: `null`/`undefined`
and the empty string are falsy. -/
def truthy : Option String → Bool
  | none => false
  | some s => !(s == "")

/-- The check `lessonsTask?.status === TaskStatus.COMPLETED` (lines 138-139, 146-147). -/
def lessonsCompleted (t : TaskTracker) : Bool :=
  match getTaskByType t ContentTaskType.LESSONS with
  | some r => r.status == TaskStatus.COMPLETED
  | none => false

/-- The check that `relatedQuestionsTask?.status` is already COMPLETED or FAILED (the negation
of the guard at line 159; an absent record counts as not settled, since in JS
`undefined !== COMPLETED && undefined !== FAILED` holds). -/
def rqSettled (t : TaskTracker) : Bool :=
  match getTaskByType t ContentTaskType.RELATED_QUESTIONS with
  | some r => r.status == TaskStatus.COMPLETED || r.status == TaskStatus.FAILED
  | none => false

/-- Tracker effect of one progress-callback invocation (lines 123-150):
substring classification in source order, first match winning. -/
def callbackTracker (msg : String) (tc : TrackerAcc) : TrackerAcc :=
  if strContains msg "submitted" then
    emit (emit tc (TrackerCall.updateTaskProgress ContentTaskType.LESSONS 20))
      (TrackerCall.updateTaskProgress ContentTaskType.RELATED_QUESTIONS 10)
  else if strContains msg "Lessons ready" then
    emit (emit (emit tc (TrackerCall.markTaskCompleted ContentTaskType.LESSONS))
      (TrackerCall.updateTaskProgress ContentTaskType.RELATED_QUESTIONS 50))
      (TrackerCall.updateTaskProgress ContentTaskType.FLASHCARDS 10)
  else if strContains msg "Related questions ready" then
    let tc2 := emit tc (TrackerCall.markTaskCompleted ContentTaskType.RELATED_QUESTIONS)
    if lessonsCompleted tc2.1 then
      emit tc2 (TrackerCall.updateTaskProgress ContentTaskType.FLASHCARDS 30)
    else tc2
  else if strContains msg "may take longer" then
    let tc2 := emit tc (TrackerCall.markTaskFailed ContentTaskType.RELATED_QUESTIONS
      "Related questions are taking longer than expected")
    if lessonsCompleted tc2.1 then
      emit tc2 (TrackerCall.updateTaskProgress ContentTaskType.FLASHCARDS 30)
    else tc2
  else tc

/-- One progress-callback invocation (lines 116-151): overwrite `progress`
with the received text, then drive the tracker. -/
def progressCallback (msg : String) (s : QueryState) (tc : TrackerAcc) :
    QueryState × TrackerAcc :=
  ({ s with progress := some msg }, callbackTracker msg tc)

/-- Run the whole sequence of progress-callback invocations. -/
def runCallbacks (msgs : List String) (s : QueryState) (tc : TrackerAcc) :
    QueryState × TrackerAcc :=
  msgs.foldl (fun acc msg => progressCallback msg acc.1 acc.2) (s, tc)

/-- Tracker-only view of running the callback sequence. -/
def runCallbackTrackers (msgs : List String) (tc : TrackerAcc) : TrackerAcc :=
  msgs.foldl (fun acc msg => callbackTracker msg acc) tc

/-- The Task Tracker state at the post-submission reconciliation point of a
fresh submission: after `startTracking` and all progress callbacks. -/
def trackerAtReconciliation (env : Env) (t0 : TaskTracker) : TaskTracker :=
  (runCallbackTrackers env.progressMessages
    (emit (t0, []) (TrackerCall.startTracking ("query-" ++ toString env.now)))).1

/-- In-flight data of the body of `submitQuery`'s try block: state, tracker
accumulator and collaborator flags; an `Except.error` carries the thrown
error together with the data at throw time. -/
abbrev RunData := QueryState × TrackerAcc × Flags

/-- The fresh-submission path (lines 84-203): connectivity probe, task
tracking, submission with callbacks, reconciliation, best-effort cache save,
final success commit.  Any collaborator throw aborts with the data so far. -/
def freshPath (env : Env) (query : String) (userId : Option String)
    (s : QueryState) (tc : TrackerAcc) : Except (JsError × RunData) RunData :=
  let s := { s with progress := some "Checking backend connection..." }
  let s :=
    match env.healthCheck with
    | Except.ok _ => s
    | Except.error _ =>
        { s with progress := some "Backend connection failed. Is the server running?" }
  let request : QueryRequest := { query := query, user_id := userId }
  let s := { s with progress := some "Submitting new query to backend..." }
  let tc := emit tc (TrackerCall.startTracking ("query-" ++ toString env.now))
  let stc := runCallbacks env.progressMessages s tc
  let s := stc.1
  let tc := stc.2
  match env.submitQueryAndWait with
  | Except.error e => Except.error (e, s, tc, ⟨some request, none, false⟩)
  | Except.ok result =>
    let tc :=
      if result.lessons.isSome && result.relatedQuestions.isNone then
        if rqSettled tc.1 then tc
        else emit tc (TrackerCall.markTaskFailed ContentTaskType.RELATED_QUESTIONS
          "Related questions could not be generated")
      else tc
    let tc :=
      if result.lessons.isSome then
        emit tc (TrackerCall.updateTaskProgress ContentTaskType.FLASHCARDS 50)
      else tc
    let timers := result.lessons.isSome
    if truthy result.queryId then
      let saved := some (query, result.queryId.getD "")
      match env.saveQueryMapping with
      | Except.error e => Except.error (e, s, tc, ⟨some request, saved, timers⟩)
      | Except.ok _ =>
          Except.ok ({ s with
            loading := false, queryId := result.queryId,
            lessons := result.lessons, relatedQuestions := result.relatedQuestions,
            progress := some "Query completed!" }, tc, ⟨some request, saved, timers⟩)
    else
      Except.ok ({ s with
        loading := false, queryId := result.queryId,
        lessons := result.lessons, relatedQuestions := result.relatedQuestions,
        progress := some "Query completed!" }, tc, ⟨some request, none, timers⟩)

/-- The body of `submitQuery`'s try block (lines 44-203): cache probe, then
either the cached-content path or the fresh-submission path. -/
def submitQueryCore (env : Env) (query : String) (userId : Option String)
    (s : QueryState) (tc : TrackerAcc) : Except (JsError × RunData) RunData :=
  match env.getCachedQueryId with
  | Except.error e => Except.error (e, s, tc, ⟨none, none, false⟩)
  | Except.ok cached =>
    match cached with
    | some cid =>
      if cid == "" then freshPath env query userId s tc
      else
        let s := { s with progress := some "Found cached query, loading content..." }
        let lessonsResult : Option ContentResponse :=
          match env.getLessons with
          | Except.ok v => some v
          | Except.error _ => none
        let relatedQuestionsResult : Option ContentResponse :=
          match env.getRelatedQuestions with
          | Except.ok v => some v
          | Except.error _ => none
        match lessonsResult with
        | some l =>
            Except.ok ({ s with
              loading := false, queryId := some cid,
              lessons := some l, relatedQuestions := relatedQuestionsResult,
              progress := some "Cached content loaded!" }, tc, ⟨none, none, false⟩)
        | none => freshPath env query userId s tc
    | none => freshPath env query userId s tc

/-- State committed at the start of `submitQuery` (lines 37-42). -/
def sEntry (s0 : QueryState) : QueryState :=
  { s0 with
    loading := true, error := none,
    progress := some "Checking for cached query..." }

/-- Assemble the final `Outcome` from the try-block result; the error case is
the catch block (lines 205-229): derive the message, commit the terminal error
state, and reset the Task Tracker. -/
def finishOutcome : Except (JsError × RunData) RunData → Outcome
  | Except.ok (s, tc, fl) =>
      { state := s, tracker := tc.1, trackerCalls := tc.2,
        submitted := fl.submitted, saved := fl.saved,
        timersScheduled := fl.timersScheduled, erroredWith := none }
  | Except.error (e, s, tc, fl) =>
      let tc := emit tc TrackerCall.reset
      { state := { s with
          loading := false,
          error := some (deriveErrorMessage e), progress := none },
        tracker := tc.1, trackerCalls := tc.2,
        submitted := fl.submitted, saved := fl.saved,
        timersScheduled := fl.timersScheduled, erroredWith := some e }

/-- The `submitQuery` workflow of `useApiQuery` (lines 36-230), as a function
of the collaborator outcomes `env`, the prior `QueryState` `s0` and the prior
Task Tracker state `t0`. -/
def submitQuery (env : Env) (query : String) (userId : Option String)
    (s0 : QueryState) (t0 : TaskTracker) : Outcome :=
  finishOutcome (submitQueryCore env query userId (sEntry s0) (t0, []))

/-! ### Content Fetch Workflow (`useQueryContent`, lines 268-326) -/

/-- The shared `{loading, error}` pair of `useQueryContent`. -/
structure ContentState where
  loading : Bool
  error : Option String
deriving DecidableEq, Repr

/-- Outcomes of the API-client calls available to `useQueryContent`. -/
structure FetchEnv where
  getFlashcardsByLesson : Nat → Except JsError ContentResponse
  getFlashcardsAll : Except JsError ContentResponse
  getQuizAt : Nat → Except JsError ContentResponse

/-- One run of a content-fetch operation: the state committed at entry, the
state committed at exit, and the returned value. -/
structure FetchRun where
  entryState : ContentState
  finalState : ContentState
  ret : Option ContentResponse
deriving Repr

/-- Error-to-message derivation of the content-fetch catch blocks
(lines 283-289 and 306-312): the API-client or error message, else the
given fallback. -/
def fetchErrMsg (fallback : String) : JsError → String
  | JsError.apiClientError _ m => m
  | JsError.generic m => m
  | JsError.nonError => fallback

/-- The API-client call chosen by `getFlashcards` (lines 277-279): scoped to a
lesson when an index is given, unscoped otherwise. -/
def flashFetch (env : FetchEnv) : Option Nat → Except JsError ContentResponse
  | some i => env.getFlashcardsByLesson i
  | none => env.getFlashcardsAll

/-- The `getFlashcards` operation of `useQueryContent` (lines 272-295). -/
def getFlashcards (env : FetchEnv) (_queryId : String) (lessonIndex : Option Nat)
    (s : ContentState) : FetchRun :=
  let entry := { s with loading := true, error := none }
  match flashFetch env lessonIndex with
  | Except.ok v =>
      { entryState := entry, finalState := { entry with loading := false },
        ret := some v }
  | Except.error e =>
      { entryState := entry,
        finalState := { loading := false,
                        error := some (fetchErrMsg "Failed to get flashcards" e) },
        ret := none }

/-- The `getQuiz` operation of `useQueryContent` (lines 297-318); `lessonIndex = none` models
a call without the optional argument, which the source defaults to 0. -/
def getQuiz (env : FetchEnv) (_queryId : String) (lessonIndex : Option Nat)
    (s : ContentState) : FetchRun :=
  let idx := lessonIndex.getD 0
  let entry := { s with loading := true, error := none }
  match env.getQuizAt idx with
  | Except.ok v =>
      { entryState := entry, finalState := { entry with loading := false },
        ret := some v }
  | Except.error e =>
      { entryState := entry,
        finalState := { loading := false,
                        error := some (fetchErrMsg "Failed to get quiz" e) },
        ret := none }

/-! ### App Shell / Navigation (AppShell.tsx) -/

/-- The named views of the App Shell. -/
inductive AppState where
  | home
  | explanation
  | flashcards
  | quiz
  | explore
  | library
  | lessons
deriving DecidableEq, Repr

/-- The App Shell state fields touched by the navigation handlers. -/
structure ShellState where
  currentState : AppState
  currentTopic : String
  currentStepIndex : Nat
  isUserQuery : Bool
deriving DecidableEq, Repr

/-- A lesson-progress entry of the external lesson-progress store;
`createdAt` is the creation timestamp (`new Date(createdAt).getTime()`). -/
structure LessonProgressEntry where
  topic : String
  queryId : String
  createdAt : Nat
deriving DecidableEq, Repr

/-- Collaborators read by the App Shell handlers: the lesson-progress list and
`getLastAccessedLesson(queryId)`. -/
structure ShellEnv where
  lessonProgressList : List LessonProgressEntry
  getLastAccessedLesson : String → Nat

/-- Keep the later-created of two entries, preferring the accumulator on ties
(the comparator `b.createdAt - a.createdAt` with a stable sort keeps the
earlier-listed entry first among equal timestamps). -/
def pickNewer (best c : LessonProgressEntry) : LessonProgressEntry :=
  if best.createdAt < c.createdAt then c else best

/-- The head of `lessonProgressList` sorted by `createdAt` descending with a
stable sort (AppShell.tsx lines 73-75): the earliest-listed entry with the
maximal `createdAt`, or `none` for an empty list. -/
def mostRecentLesson : List LessonProgressEntry → Option LessonProgressEntry
  | [] => none
  | e :: es => some (es.foldl pickNewer e)

/-- The `handleStartExploration` handler (AppShell.tsx lines 22-39); `category` is accepted
and unused, as in the source. -/
def handleStartExploration (env : ShellEnv) (topic : String)
    (_category : Option String) (fromLessonContinue : Bool)
    (s : ShellState) : ShellState :=
  let s := { s with currentTopic := topic }
  match env.lessonProgressList.find? (fun l => l.topic == topic) with
  | some existingLesson =>
      { s with
        currentStepIndex := env.getLastAccessedLesson existingLesson.queryId,
        isUserQuery := true,
        currentState := AppState.explanation }
  | none =>
      { s with
        currentStepIndex := 0,
        isUserQuery := !fromLessonContinue,
        currentState := AppState.explanation }

/-- The `handleShowExplanation` handler (AppShell.tsx lines 61-83). -/
def handleShowExplanation (env : ShellEnv) (s : ShellState) : ShellState :=
  if s.currentTopic == "" then
    match mostRecentLesson env.lessonProgressList with
    | some mostRecent => handleStartExploration env mostRecent.topic none true s
    | none => { s with currentState := AppState.home }
  else
    { s with currentState := AppState.explanation }

/-! ### Concrete environments used as witnesses and counterexamples -/

/-- A run whose cache probe hits and whose content fetches succeed. -/
def envCacheHit : Env :=
  { getCachedQueryId := Except.ok (some "q1")
    getLessons := Except.ok "lesson-payload"
    getRelatedQuestions := Except.ok "related-payload"
    healthCheck := Except.ok ()
    now := 0
    progressMessages := []
    submitQueryAndWait := Except.ok { queryId := none, lessons := none, relatedQuestions := none }
    saveQueryMapping := Except.ok () }

/-- A run whose cache probe itself throws. -/
def envCacheProbeThrow : Env :=
  { envCacheHit with getCachedQueryId := Except.error (JsError.generic "idb failure") }

/-- A cache miss whose submission fails with a network-level API-client error. -/
def envConnRefused : Env :=
  { envCacheHit with
    getCachedQueryId := Except.ok none
    submitQueryAndWait := Except.error (JsError.apiClientError 0 "ECONNREFUSED") }

/-- A cache miss whose submission succeeds with lessons but no related
questions, and whose cache-mapping persistence then fails. -/
def envSaveFail : Env :=
  { envCacheHit with
    getCachedQueryId := Except.ok none
    submitQueryAndWait := Except.ok
      { queryId := some "q1", lessons := some "L", relatedQuestions := none }
    saveQueryMapping := Except.error (JsError.generic "disk full") }

/-- Same as `envSaveFail` but with the persistence call succeeding. -/
def envSaveOk : Env :=
  { envSaveFail with saveQueryMapping := Except.ok () }

/-- A shell environment with two stored lessons, the later-created one second. -/
def shellEnvW : ShellEnv :=
  { lessonProgressList :=
      [{ topic := "topicA", queryId := "qA", createdAt := 5 },
       { topic := "topicB", queryId := "qB", createdAt := 9 }]
    getLastAccessedLesson := fun _ => 3 }

/-- A shell state with no current topic. -/
def shellStateW : ShellState :=
  { currentState := AppState.home, currentTopic := "", currentStepIndex := 0,
    isUserQuery := true }

/-! ### Helper lemmas about the callback fold -/

lemma runCallbacks_nil (s : QueryState) (tc : TrackerAcc) :
    runCallbacks [] s tc = (s, tc) := rfl

lemma runCallbacks_cons (m : String) (ms : List String) (s : QueryState)
    (tc : TrackerAcc) :
    runCallbacks (m :: ms) s tc =
      runCallbacks ms { s with progress := some m } (callbackTracker m tc) := rfl

lemma runCallbacks_snd (ms : List String) (s : QueryState) (tc : TrackerAcc) :
    (runCallbacks ms s tc).2 = runCallbackTrackers ms tc := by
  induction ms generalizing s tc with
  | nil => rfl
  | cons m ms ih =>
      rw [runCallbacks_cons]
      exact ih _ _

lemma runCallbacks_fst (ms : List String) (s : QueryState) (tc : TrackerAcc) :
    ∃ p, (runCallbacks ms s tc).1 = { s with progress := p } := by
  induction ms generalizing s tc with
  | nil => exact ⟨s.progress, rfl⟩
  | cons m ms ih =>
      rw [runCallbacks_cons]
      obtain ⟨p, hp⟩ := ih { s with progress := some m } (callbackTracker m tc)
      exact ⟨p, hp⟩

lemma runCallbacks_loading (ms : List String) (s : QueryState) (tc : TrackerAcc) :
    (runCallbacks ms s tc).1.loading = s.loading := by
  obtain ⟨p, hp⟩ := runCallbacks_fst ms s tc
  rw [hp]

lemma runCallbacks_error (ms : List String) (s : QueryState) (tc : TrackerAcc) :
    (runCallbacks ms s tc).1.error = s.error := by
  obtain ⟨p, hp⟩ := runCallbacks_fst ms s tc
  rw [hp]

lemma runCallbacks_queryId (ms : List String) (s : QueryState) (tc : TrackerAcc) :
    (runCallbacks ms s tc).1.queryId = s.queryId := by
  obtain ⟨p, hp⟩ := runCallbacks_fst ms s tc
  rw [hp]

lemma runCallbacks_lessons (ms : List String) (s : QueryState) (tc : TrackerAcc) :
    (runCallbacks ms s tc).1.lessons = s.lessons := by
  obtain ⟨p, hp⟩ := runCallbacks_fst ms s tc
  rw [hp]

lemma runCallbacks_relatedQuestions (ms : List String) (s : QueryState)
    (tc : TrackerAcc) :
    (runCallbacks ms s tc).1.relatedQuestions = s.relatedQuestions := by
  obtain ⟨p, hp⟩ := runCallbacks_fst ms s tc
  rw [hp]

/-! ### Error-path characterization of `submitQuery` -/

lemma freshPath_error_fields (env : Env) (query : String) (userId : Option String)
    (s : QueryState) (tc : TrackerAcc) (e : JsError) (d : RunData)
    (h : freshPath env query userId s tc = Except.error (e, d)) :
    d.1.queryId = s.queryId ∧ d.1.lessons = s.lessons ∧
      d.1.relatedQuestions = s.relatedQuestions := by
  cases hh : env.healthCheck with
  | ok u =>
      simp only [freshPath, hh] at h
      cases hsub : env.submitQueryAndWait with
      | error e2 =>
          simp only [hsub, Except.error.injEq, Prod.mk.injEq] at h
          obtain ⟨h1, h2⟩ := h
          subst h2
          simp [runCallbacks_queryId, runCallbacks_lessons,
            runCallbacks_relatedQuestions]
      | ok result =>
          simp only [hsub] at h
          cases htr : truthy result.queryId with
          | false =>
              simp only [htr, Bool.false_eq_true, if_false] at h
              exact Except.noConfusion h
          | true =>
              simp only [htr, if_true] at h
              cases hsave : env.saveQueryMapping with
              | ok u2 =>
                  simp only [hsave] at h
                  exact Except.noConfusion h
              | error e2 =>
                  simp only [hsave, Except.error.injEq, Prod.mk.injEq] at h
                  obtain ⟨h1, h2⟩ := h
                  subst h2
                  simp [runCallbacks_queryId, runCallbacks_lessons,
                    runCallbacks_relatedQuestions]
  | error he =>
      simp only [freshPath, hh] at h
      cases hsub : env.submitQueryAndWait with
      | error e2 =>
          simp only [hsub, Except.error.injEq, Prod.mk.injEq] at h
          obtain ⟨h1, h2⟩ := h
          subst h2
          simp [runCallbacks_queryId, runCallbacks_lessons,
            runCallbacks_relatedQuestions]
      | ok result =>
          simp only [hsub] at h
          cases htr : truthy result.queryId with
          | false =>
              simp only [htr, Bool.false_eq_true, if_false] at h
              exact Except.noConfusion h
          | true =>
              simp only [htr, if_true] at h
              cases hsave : env.saveQueryMapping with
              | ok u2 =>
                  simp only [hsave] at h
                  exact Except.noConfusion h
              | error e2 =>
                  simp only [hsave, Except.error.injEq, Prod.mk.injEq] at h
                  obtain ⟨h1, h2⟩ := h
                  subst h2
                  simp [runCallbacks_queryId, runCallbacks_lessons,
                    runCallbacks_relatedQuestions]

lemma core_error_fields (env : Env) (query : String) (userId : Option String)
    (s : QueryState) (tc : TrackerAcc) (e : JsError) (d : RunData)
    (h : submitQueryCore env query userId s tc = Except.error (e, d)) :
    d.1.queryId = s.queryId ∧ d.1.lessons = s.lessons ∧
      d.1.relatedQuestions = s.relatedQuestions := by
  simp only [submitQueryCore] at h
  cases hc : env.getCachedQueryId with
  | error e2 =>
      simp only [hc, Except.error.injEq, Prod.mk.injEq] at h
      obtain ⟨h1, h2⟩ := h
      subst h2
      exact ⟨rfl, rfl, rfl⟩
  | ok cached =>
      simp only [hc] at h
      cases cached with
      | none => exact freshPath_error_fields _ _ _ _ _ _ _ h
      | some cid =>
          cases hcid : (cid == "") with
          | true =>
              simp only [hcid, if_true] at h
              exact freshPath_error_fields _ _ _ _ _ _ _ h
          | false =>
              simp only [hcid, Bool.false_eq_true, if_false] at h
              cases hl : env.getLessons with
              | ok l =>
                  simp only [hl] at h
                  exact Except.noConfusion h
              | error e3 =>
                  simp only [hl] at h
                  exact freshPath_error_fields _ _ _ _ _ _ _ h

lemma submitQuery_error_facts (env : Env) (query : String) (userId : Option String)
    (s0 : QueryState) (t0 : TaskTracker) (e : JsError)
    (h : (submitQuery env query userId s0 t0).erroredWith = some e) :
    (submitQuery env query userId s0 t0).state.loading = false ∧
    (submitQuery env query userId s0 t0).state.error = some (deriveErrorMessage e) ∧
    (submitQuery env query userId s0 t0).state.progress = none ∧
    (submitQuery env query userId s0 t0).state.queryId = s0.queryId ∧
    (submitQuery env query userId s0 t0).state.lessons = s0.lessons ∧
    (submitQuery env query userId s0 t0).state.relatedQuestions = s0.relatedQuestions ∧
    (submitQuery env query userId s0 t0).tracker = TaskTracker.init := by
  unfold submitQuery at h ⊢
  revert h
  cases hcore : submitQueryCore env query userId (sEntry s0) (t0, []) with
  | ok val =>
      obtain ⟨sX, tcX, flX⟩ := val
      intro h
      simp [finishOutcome] at h
  | error err =>
      obtain ⟨e2, d⟩ := err
      obtain ⟨d1, d2, d3⟩ := d
      intro h
      obtain ⟨hq, hl, hr⟩ := core_error_fields _ _ _ _ _ _ _ hcore
      simp only [finishOutcome, Option.some.injEq] at h
      subst h
      exact ⟨rfl, rfl, rfl, hq, hl, hr, rfl⟩

/-! ### Fresh-submission-path characterization -/

lemma submitted_fresh (env : Env) (query : String) (userId : Option String)
    (s0 : QueryState) (t0 : TaskTracker)
    (h : (submitQuery env query userId s0 t0).submitted.isSome = true) :
    submitQuery env query userId s0 t0 =
      finishOutcome (freshPath env query userId (sEntry s0) (t0, [])) := by
  unfold submitQuery at h ⊢
  simp only [submitQueryCore] at h ⊢
  revert h
  cases hc : env.getCachedQueryId with
  | error e2 =>
      intro h
      simp [finishOutcome] at h
  | ok cached =>
      cases cached with
      | none =>
          intro h
          rfl
      | some cid =>
          cases hcid : (cid == "") with
          | true =>
              intro h
              simp only [hcid, if_true]
          | false =>
              cases hl : env.getLessons with
              | ok l =>
                  intro h
                  simp [hcid, hl, finishOutcome] at h
              | error e3 =>
                  intro h
                  simp only [hcid, Bool.false_eq_true, if_false, hl]
                  rfl

lemma freshPath_success (env : Env) (query : String) (userId : Option String)
    (s : QueryState) (tc : TrackerAcc) (r : SubmitResult) (l : ContentResponse)
    (h2 : env.submitQueryAndWait = Except.ok r)
    (h3 : r.lessons = some l)
    (h4 : r.relatedQuestions = none)
    (h5 : rqSettled (runCallbackTrackers env.progressMessages
      (emit tc (TrackerCall.startTracking ("query-" ++ toString env.now)))).1 = false)
    (h6 : truthy r.queryId = false ∨ env.saveQueryMapping = Except.ok ()) :
    ∃ d, freshPath env query userId s tc = Except.ok d ∧
      d.1.loading = false ∧ d.1.error = s.error ∧ d.1.queryId = r.queryId ∧
      d.1.lessons = some l ∧ d.1.relatedQuestions = none ∧
      d.1.progress = some "Query completed!" ∧
      (∃ p, getTaskByType d.2.1.1 ContentTaskType.RELATED_QUESTIONS =
        some ⟨TaskStatus.FAILED, p, some "Related questions could not be generated"⟩) ∧
      d.2.2.submitted = some { query := query, user_id := userId } := by
  unfold freshPath
  cases hh : env.healthCheck <;>
    (simp only [hh, h2, h3, h4, Option.isSome_some, Option.isNone_none,
       Bool.and_self, if_true, runCallbacks_snd, h5, Bool.false_eq_true, if_false]
     rcases h6 with h6 | h6
     · simp only [h6, Bool.false_eq_true, if_false]
       refine ⟨_, rfl, rfl, ?_, rfl, rfl, rfl, rfl, ?_, rfl⟩
       · exact runCallbacks_error _ _ _
       · simp only [emit, applyCall, setTask, getTaskByType]
         exact ⟨_, rfl⟩
     · cases htr : truthy r.queryId with
       | true =>
           simp only [htr, if_true, h6]
           refine ⟨_, rfl, rfl, ?_, rfl, rfl, rfl, rfl, ?_, rfl⟩
           · exact runCallbacks_error _ _ _
           · simp only [emit, applyCall, setTask, getTaskByType]
             exact ⟨_, rfl⟩
       | false =>
           simp only [htr, Bool.false_eq_true, if_false]
           refine ⟨_, rfl, rfl, ?_, rfl, rfl, rfl, rfl, ?_, rfl⟩
           · exact runCallbacks_error _ _ _
           · simp only [emit, applyCall, setTask, getTaskByType]
             exact ⟨_, rfl⟩)

/-! ### App Shell helper lemmas -/

lemma pickNewer_left_le (b c : LessonProgressEntry) :
    b.createdAt ≤ (pickNewer b c).createdAt := by
  unfold pickNewer
  split <;> omega

lemma pickNewer_right_le (b c : LessonProgressEntry) :
    c.createdAt ≤ (pickNewer b c).createdAt := by
  unfold pickNewer
  split
  · omega
  · next h => omega

lemma foldl_pickNewer_acc_le (es : List LessonProgressEntry)
    (b : LessonProgressEntry) :
    b.createdAt ≤ (es.foldl pickNewer b).createdAt := by
  induction es generalizing b with
  | nil => exact le_refl _
  | cons c cs ih =>
      rw [List.foldl_cons]
      exact le_trans (pickNewer_left_le b c) (ih (pickNewer b c))

lemma foldl_pickNewer_mem (es : List LessonProgressEntry)
    (b : LessonProgressEntry) :
    es.foldl pickNewer b = b ∨ es.foldl pickNewer b ∈ es := by
  induction es generalizing b with
  | nil => exact Or.inl rfl
  | cons c cs ih =>
      rw [List.foldl_cons]
      rcases ih (pickNewer b c) with h | h
      · rw [h]
        unfold pickNewer
        split
        · exact Or.inr (List.mem_cons_self _ _)
        · exact Or.inl rfl
      · exact Or.inr (List.mem_cons_of_mem _ h)

lemma foldl_pickNewer_max (es : List LessonProgressEntry)
    (b : LessonProgressEntry) :
    ∀ x ∈ es, x.createdAt ≤ (es.foldl pickNewer b).createdAt := by
  induction es generalizing b with
  | nil =>
      intro x hx
      cases hx
  | cons c cs ih =>
      intro x hx
      rw [List.foldl_cons]
      rcases List.mem_cons.mp hx with h | h
      · subst h
        exact le_trans (pickNewer_right_le b x) (foldl_pickNewer_acc_le cs _)
      · exact ih (pickNewer b c) x h

lemma mostRecentLesson_mem (l : List LessonProgressEntry)
    (e : LessonProgressEntry) (h : mostRecentLesson l = some e) : e ∈ l := by
  cases l with
  | nil => cases h
  | cons a as =>
      simp only [mostRecentLesson, Option.some.injEq] at h
      subst h
      rcases foldl_pickNewer_mem as a with h | h
      · rw [h]
        exact List.mem_cons_self _ _
      · exact List.mem_cons_of_mem _ h

lemma mostRecentLesson_max (l : List LessonProgressEntry)
    (e : LessonProgressEntry) (h : mostRecentLesson l = some e) :
    ∀ x ∈ l, x.createdAt ≤ e.createdAt := by
  cases l with
  | nil => cases h
  | cons a as =>
      simp only [mostRecentLesson, Option.some.injEq] at h
      subst h
      intro x hx
      rcases List.mem_cons.mp hx with h | h
      · subst h
        exact foldl_pickNewer_acc_le as x
      · exact foldl_pickNewer_max as a x h

lemma handleStartExploration_currentState (env : ShellEnv) (topic : String)
    (cat : Option String) (cont : Bool) (s : ShellState) :
    (handleStartExploration env topic cat cont s).currentState =
      AppState.explanation := by
  unfold handleStartExploration
  cases env.lessonProgressList.find? (fun l => l.topic == topic) <;> rfl

lemma handleStartExploration_currentTopic (env : ShellEnv) (topic : String)
    (cat : Option String) (cont : Bool) (s : ShellState) :
    (handleStartExploration env topic cat cont s).currentTopic = topic := by
  unfold handleStartExploration
  cases env.lessonProgressList.find? (fun l => l.topic == topic) <;> rfl

/-! ### Claim theorems -/

/-- C1: for every query for which the Offline Cache returns a (non-empty)
cached id and the subsequent lessons fetch succeeds, `submitQuery` terminates
with `loading = false`, `queryId` equal to the cached id, `lessons` set to the
fetched payload, `relatedQuestions` set to the fetched payload or null if that
fetch failed, `progress = "Cached content loaded!"`, and the submission
collaborator `submitQueryAndWait` is never invoked. -/
theorem C1_cache_hit_success (env : Env) (query : String) (userId : Option String)
    (s0 : QueryState) (t0 : TaskTracker) (cid : String) (l : ContentResponse)
    (hc : env.getCachedQueryId = Except.ok (some cid)) (hne : cid ≠ "")
    (hl : env.getLessons = Except.ok l) :
    (submitQuery env query userId s0 t0).state.loading = false ∧
    (submitQuery env query userId s0 t0).state.queryId = some cid ∧
    (submitQuery env query userId s0 t0).state.lessons = some l ∧
    (submitQuery env query userId s0 t0).state.relatedQuestions =
      (match env.getRelatedQuestions with
        | Except.ok v => some v
        | Except.error _ => none) ∧
    (submitQuery env query userId s0 t0).state.progress =
      some "Cached content loaded!" ∧
    (submitQuery env query userId s0 t0).submitted = none := by
  have hcid : (cid == "") = false := by
    simp only [beq_eq_false_iff_ne, ne_eq]
    exact hne
  unfold submitQuery
  simp only [submitQueryCore, hc, hcid, Bool.false_eq_true, if_false, hl]
  cases hr : env.getRelatedQuestions <;> simp [finishOutcome]

/-- C1 witness: a concrete cache-hit run. -/
theorem C1_cache_hit_success_witness :
    envCacheHit.getCachedQueryId = Except.ok (some "q1") ∧ "q1" ≠ "" ∧
    envCacheHit.getLessons = Except.ok "lesson-payload" ∧
    ((submitQuery envCacheHit "photosynthesis" none QueryState.init
        TaskTracker.init).state.loading = false ∧
      (submitQuery envCacheHit "photosynthesis" none QueryState.init
        TaskTracker.init).state.queryId = some "q1" ∧
      (submitQuery envCacheHit "photosynthesis" none QueryState.init
        TaskTracker.init).state.lessons = some "lesson-payload" ∧
      (submitQuery envCacheHit "photosynthesis" none QueryState.init
        TaskTracker.init).state.relatedQuestions =
        (match envCacheHit.getRelatedQuestions with
          | Except.ok v => some v
          | Except.error _ => none) ∧
      (submitQuery envCacheHit "photosynthesis" none QueryState.init
        TaskTracker.init).state.progress = some "Cached content loaded!" ∧
      (submitQuery envCacheHit "photosynthesis" none QueryState.init
        TaskTracker.init).submitted = none) :=
  ⟨rfl, by decide, rfl,
    C1_cache_hit_success envCacheHit "photosynthesis" none QueryState.init
      TaskTracker.init "q1" "lesson-payload" rfl (by decide) rfl⟩

/-- C10: on the cached-content success path (cache hit whose lessons fetch
succeeds) no Task Tracker operation is invoked at all and the tracker state is
exactly as it was before the call; the submission is also never made. -/
theorem C10_cache_hit_frame (env : Env) (query : String) (userId : Option String)
    (s0 : QueryState) (t0 : TaskTracker) (cid : String) (l : ContentResponse)
    (hc : env.getCachedQueryId = Except.ok (some cid)) (hne : cid ≠ "")
    (hl : env.getLessons = Except.ok l) :
    (submitQuery env query userId s0 t0).trackerCalls = [] ∧
    (submitQuery env query userId s0 t0).tracker = t0 ∧
    (submitQuery env query userId s0 t0).submitted = none := by
  have hcid : (cid == "") = false := by
    simp only [beq_eq_false_iff_ne, ne_eq]
    exact hne
  unfold submitQuery
  simp only [submitQueryCore, hc, hcid, Bool.false_eq_true, if_false, hl]
  simp [finishOutcome]

/-- C10 witness: on the concrete cache-hit run the tracker is untouched. -/
theorem C10_cache_hit_frame_witness :
    envCacheHit.getCachedQueryId = Except.ok (some "q1") ∧ "q1" ≠ "" ∧
    envCacheHit.getLessons = Except.ok "lesson-payload" ∧
    ((submitQuery envCacheHit "photosynthesis" none QueryState.init
        TaskTracker.init).trackerCalls = [] ∧
      (submitQuery envCacheHit "photosynthesis" none QueryState.init
        TaskTracker.init).tracker = TaskTracker.init ∧
      (submitQuery envCacheHit "photosynthesis" none QueryState.init
        TaskTracker.init).submitted = none) :=
  ⟨rfl, by decide, rfl,
    C10_cache_hit_frame envCacheHit "photosynthesis" none QueryState.init
      TaskTracker.init "q1" "lesson-payload" rfl (by decide) rfl⟩

/-- C3 counterexample: when the cache probe itself throws, the failure is NOT
swallowed: the run surfaces it via the `error` field and the fresh-submission
path is never taken (the claim asserts the opposite on both counts). -/
theorem C3_cache_probe_counterexample :
    envCacheProbeThrow.getCachedQueryId =
      Except.error (JsError.generic "idb failure") ∧
    (submitQuery envCacheProbeThrow "photosynthesis" none QueryState.init
      TaskTracker.init).state.error = some "idb failure" ∧
    (submitQuery envCacheProbeThrow "photosynthesis" none QueryState.init
      TaskTracker.init).submitted = none :=
  ⟨rfl, rfl, rfl⟩

/-- C3 (amended): when the cache probe throws, the failure is caught by the
workflow's outer catch and surfaced via the `error` field; the workflow takes
the error path (loading cleared, progress cleared, tracker reset) and the
fresh-submission path is not taken. -/
theorem C3_cache_probe_error_path (env : Env) (query : String)
    (userId : Option String) (s0 : QueryState) (t0 : TaskTracker) (e : JsError)
    (h : env.getCachedQueryId = Except.error e) :
    (submitQuery env query userId s0 t0).erroredWith = some e ∧
    (submitQuery env query userId s0 t0).state.error =
      some (deriveErrorMessage e) ∧
    (submitQuery env query userId s0 t0).submitted = none ∧
    (submitQuery env query userId s0 t0).state.loading = false ∧
    (submitQuery env query userId s0 t0).state.progress = none ∧
    (submitQuery env query userId s0 t0).tracker = TaskTracker.init := by
  unfold submitQuery
  simp only [submitQueryCore, h]
  simp [finishOutcome, emit, applyCall]

/-- C3 witness: the amended behaviour on the concrete cache-probe failure. -/
theorem C3_cache_probe_error_path_witness :
    envCacheProbeThrow.getCachedQueryId =
      Except.error (JsError.generic "idb failure") ∧
    ((submitQuery envCacheProbeThrow "photosynthesis" none QueryState.init
        TaskTracker.init).erroredWith = some (JsError.generic "idb failure") ∧
      (submitQuery envCacheProbeThrow "photosynthesis" none QueryState.init
        TaskTracker.init).state.error =
        some (deriveErrorMessage (JsError.generic "idb failure")) ∧
      (submitQuery envCacheProbeThrow "photosynthesis" none QueryState.init
        TaskTracker.init).submitted = none ∧
      (submitQuery envCacheProbeThrow "photosynthesis" none QueryState.init
        TaskTracker.init).state.loading = false ∧
      (submitQuery envCacheProbeThrow "photosynthesis" none QueryState.init
        TaskTracker.init).state.progress = none ∧
      (submitQuery envCacheProbeThrow "photosynthesis" none QueryState.init
        TaskTracker.init).tracker = TaskTracker.init) :=
  ⟨rfl,
    C3_cache_probe_error_path envCacheProbeThrow "photosynthesis" none
      QueryState.init TaskTracker.init (JsError.generic "idb failure") rfl⟩

/-- C4: every failure reaching the error path commits `loading = false`,
`error` set to the derived message, `progress = null`, resets the Task Tracker
to its initial empty state, and leaves `queryId`, `lessons` and
`relatedQuestions` at their prior values. -/
theorem C4_error_path_commit (env : Env) (query : String)
    (userId : Option String) (s0 : QueryState) (t0 : TaskTracker) (e : JsError)
    (h : (submitQuery env query userId s0 t0).erroredWith = some e) :
    (submitQuery env query userId s0 t0).state.loading = false ∧
    (submitQuery env query userId s0 t0).state.error =
      some (deriveErrorMessage e) ∧
    (submitQuery env query userId s0 t0).state.progress = none ∧
    (submitQuery env query userId s0 t0).state.queryId = s0.queryId ∧
    (submitQuery env query userId s0 t0).state.lessons = s0.lessons ∧
    (submitQuery env query userId s0 t0).state.relatedQuestions =
      s0.relatedQuestions ∧
    (submitQuery env query userId s0 t0).tracker = TaskTracker.init :=
  submitQuery_error_facts env query userId s0 t0 e h

/-- C4 witness: the error-path commit on the concrete cache-probe failure. -/
theorem C4_error_path_commit_witness :
    (submitQuery envCacheProbeThrow "photosynthesis" none QueryState.init
      TaskTracker.init).erroredWith = some (JsError.generic "idb failure") ∧
    ((submitQuery envCacheProbeThrow "photosynthesis" none QueryState.init
        TaskTracker.init).state.loading = false ∧
      (submitQuery envCacheProbeThrow "photosynthesis" none QueryState.init
        TaskTracker.init).state.error =
        some (deriveErrorMessage (JsError.generic "idb failure")) ∧
      (submitQuery envCacheProbeThrow "photosynthesis" none QueryState.init
        TaskTracker.init).state.progress = none ∧
      (submitQuery envCacheProbeThrow "photosynthesis" none QueryState.init
        TaskTracker.init).state.queryId = QueryState.init.queryId ∧
      (submitQuery envCacheProbeThrow "photosynthesis" none QueryState.init
        TaskTracker.init).state.lessons = QueryState.init.lessons ∧
      (submitQuery envCacheProbeThrow "photosynthesis" none QueryState.init
        TaskTracker.init).state.relatedQuestions =
        QueryState.init.relatedQuestions ∧
      (submitQuery envCacheProbeThrow "photosynthesis" none QueryState.init
        TaskTracker.init).tracker = TaskTracker.init) :=
  ⟨rfl,
    C4_error_path_commit envCacheProbeThrow "photosynthesis" none
      QueryState.init TaskTracker.init (JsError.generic "idb failure") rfl⟩

/-- C5: the user-facing message of every caught error is derived as: status
code 0 of a classified API-client error gives the connection-failure text, a
non-zero status code gives the backend-error text, any other error carrying a
message gives that message, and otherwise the generic fallback is used. -/
theorem C5_error_message_derivation (env : Env) (query : String)
    (userId : Option String) (s0 : QueryState) (t0 : TaskTracker) (e : JsError)
    (h : (submitQuery env query userId s0 t0).erroredWith = some e) :
    (submitQuery env query userId s0 t0).state.error =
      some (match e with
        | JsError.apiClientError 0 msg =>
            s!"Connection failed: {msg}. Is the backend server running on the correct port?"
        | JsError.apiClientError code msg => s!"Backend error ({code}): {msg}"
        | JsError.generic msg => msg
        | JsError.nonError => "An unexpected error occurred") := by
  have hf := (submitQuery_error_facts env query userId s0 t0 e h).2.1
  rw [hf]
  congr 1
  cases e with
  | apiClientError code msg =>
      cases code with
      | zero => rfl
      | succ n => simp [deriveErrorMessage]
  | generic msg => rfl
  | nonError => rfl

/-- C5 witness: the spec scenario: a thrown API-client error with status code
0 and message "ECONNREFUSED" yields the connection-failure text. -/
theorem C5_error_message_derivation_witness :
    (submitQuery envConnRefused "photosynthesis" none QueryState.init
      TaskTracker.init).erroredWith =
      some (JsError.apiClientError 0 "ECONNREFUSED") ∧
    (submitQuery envConnRefused "photosynthesis" none QueryState.init
      TaskTracker.init).state.error =
      some "Connection failed: ECONNREFUSED. Is the backend server running on the correct port?" :=
  ⟨rfl,
    C5_error_message_derivation envConnRefused "photosynthesis" none
      QueryState.init TaskTracker.init (JsError.apiClientError 0 "ECONNREFUSED")
      rfl⟩

/-- C2 counterexample: `saveQueryMapping` is awaited inside the try block
(line 192 sits between the `try` at line 44 and the `catch` at line 205), so
its failure IS caught by the workflow and IS surfaced via the `error` field,
contrary to the claim: on a concrete run whose submission succeeds with a
queryId and whose persistence call throws, the final `error` is the thrown
message and the catch block ran (tracker reset, progress cleared). -/
theorem C2_save_failure_counterexample :
    envSaveFail.submitQueryAndWait = Except.ok
      { queryId := some "q1", lessons := some "L", relatedQuestions := none } ∧
    envSaveFail.saveQueryMapping = Except.error (JsError.generic "disk full") ∧
    (submitQuery envSaveFail "photosynthesis" none QueryState.init
      TaskTracker.init).saved = some ("photosynthesis", "q1") ∧
    (submitQuery envSaveFail "photosynthesis" none QueryState.init
      TaskTracker.init).state.error = some "disk full" ∧
    (submitQuery envSaveFail "photosynthesis" none QueryState.init
      TaskTracker.init).erroredWith = some (JsError.generic "disk full") :=
  ⟨rfl, rfl, rfl, rfl, rfl⟩

/-- C2 (amended): for every successful submission returning a (non-empty)
queryId, if the subsequent `saveQueryMapping` call fails, the failure IS
caught by the Query Workflow's catch block and surfaced to the user via the
`error` field: the workflow takes the error path (loading false, progress
cleared, tracker reset) instead of committing the success state. -/
theorem C2_save_failure_caught (env : Env) (query : String)
    (userId : Option String) (s0 : QueryState) (t0 : TaskTracker)
    (r : SubmitResult) (e : JsError)
    (h1 : (submitQuery env query userId s0 t0).submitted.isSome = true)
    (h2 : env.submitQueryAndWait = Except.ok r)
    (h3 : truthy r.queryId = true)
    (h4 : env.saveQueryMapping = Except.error e) :
    (submitQuery env query userId s0 t0).erroredWith = some e ∧
    (submitQuery env query userId s0 t0).state.error =
      some (deriveErrorMessage e) ∧
    (submitQuery env query userId s0 t0).state.loading = false ∧
    (submitQuery env query userId s0 t0).state.progress = none ∧
    (submitQuery env query userId s0 t0).tracker = TaskTracker.init ∧
    (submitQuery env query userId s0 t0).saved =
      some (query, r.queryId.getD "") := by
  rw [submitted_fresh env query userId s0 t0 h1]
  unfold freshPath
  cases hh : env.healthCheck <;>
    simp [h2, h3, h4, if_true, finishOutcome, emit, applyCall]

/-- C2 witness: the amended behaviour on the concrete persistence failure. -/
theorem C2_save_failure_caught_witness :
    (submitQuery envSaveFail "photosynthesis" none QueryState.init
      TaskTracker.init).submitted.isSome = true ∧
    envSaveFail.submitQueryAndWait = Except.ok
      { queryId := some "q1", lessons := some "L", relatedQuestions := none } ∧
    truthy (some "q1") = true ∧
    envSaveFail.saveQueryMapping = Except.error (JsError.generic "disk full") ∧
    ((submitQuery envSaveFail "photosynthesis" none QueryState.init
        TaskTracker.init).erroredWith = some (JsError.generic "disk full") ∧
      (submitQuery envSaveFail "photosynthesis" none QueryState.init
        TaskTracker.init).state.error =
        some (deriveErrorMessage (JsError.generic "disk full")) ∧
      (submitQuery envSaveFail "photosynthesis" none QueryState.init
        TaskTracker.init).state.loading = false ∧
      (submitQuery envSaveFail "photosynthesis" none QueryState.init
        TaskTracker.init).state.progress = none ∧
      (submitQuery envSaveFail "photosynthesis" none QueryState.init
        TaskTracker.init).tracker = TaskTracker.init ∧
      (submitQuery envSaveFail "photosynthesis" none QueryState.init
        TaskTracker.init).saved = some ("photosynthesis", (some "q1").getD "")) :=
  ⟨rfl, rfl, by decide, rfl,
    C2_save_failure_caught envSaveFail "photosynthesis" none QueryState.init
      TaskTracker.init
      { queryId := some "q1", lessons := some "L", relatedQuestions := none }
      (JsError.generic "disk full") rfl rfl (by decide) rfl⟩

/-- C7 counterexample: the reconciliation marks RELATED_QUESTIONS failed, but
the claimed final success commit does not always follow: on a concrete run
meeting all the claim's conditions whose cache-mapping persistence then
throws, the run ends on the error path (`progress = null`, `error` set,
tracker reset) instead of the claimed `progress = "Query completed!"`. -/
theorem C7_reconciliation_counterexample :
    envSaveFail.submitQueryAndWait = Except.ok
      { queryId := some "q1", lessons := some "L", relatedQuestions := none } ∧
    rqSettled (trackerAtReconciliation envSaveFail TaskTracker.init) = false ∧
    (submitQuery envSaveFail "photosynthesis" none QueryState.init
      TaskTracker.init).submitted.isSome = true ∧
    (submitQuery envSaveFail "photosynthesis" none QueryState.init
      TaskTracker.init).state.progress ≠ some "Query completed!" ∧
    (submitQuery envSaveFail "photosynthesis" none QueryState.init
      TaskTracker.init).state.error ≠ none :=
  ⟨rfl, by decide, rfl, by decide, by decide⟩

/-- C7 (amended): for every submission that resolves with lessons present but
related questions absent, whose RELATED_QUESTIONS task is neither COMPLETED
nor FAILED at that point, and whose subsequent cache-mapping persistence does
not fail (or is skipped because no queryId was returned), the task is marked
FAILED with reason "Related questions could not be generated" and the final
state is committed as `loading = false`, `queryId` from the result, `lessons`
from the result, `relatedQuestions = null`, `progress = "Query completed!"`,
`error = null`. -/
theorem C7_reconciliation_success (env : Env) (query : String)
    (userId : Option String) (s0 : QueryState) (t0 : TaskTracker)
    (r : SubmitResult) (l : ContentResponse)
    (h1 : (submitQuery env query userId s0 t0).submitted.isSome = true)
    (h2 : env.submitQueryAndWait = Except.ok r)
    (h3 : r.lessons = some l)
    (h4 : r.relatedQuestions = none)
    (h5 : rqSettled (trackerAtReconciliation env t0) = false)
    (h6 : truthy r.queryId = false ∨ env.saveQueryMapping = Except.ok ()) :
    (∃ p, getTaskByType (submitQuery env query userId s0 t0).tracker
        ContentTaskType.RELATED_QUESTIONS =
      some ⟨TaskStatus.FAILED, p, some "Related questions could not be generated"⟩) ∧
    (submitQuery env query userId s0 t0).state.loading = false ∧
    (submitQuery env query userId s0 t0).state.error = none ∧
    (submitQuery env query userId s0 t0).state.queryId = r.queryId ∧
    (submitQuery env query userId s0 t0).state.lessons = some l ∧
    (submitQuery env query userId s0 t0).state.relatedQuestions = none ∧
    (submitQuery env query userId s0 t0).state.progress =
      some "Query completed!" := by
  rw [submitted_fresh env query userId s0 t0 h1]
  have h5a : rqSettled (runCallbackTrackers env.progressMessages
      (emit (t0, []) (TrackerCall.startTracking
        ("query-" ++ toString env.now)))).1 = false := h5
  obtain ⟨⟨d1, d2, d3⟩, hd, hld, herr, hqid, hles, hrq, hprog, htrk, hsubm⟩ :=
    freshPath_success env query userId (sEntry s0) (t0, []) r l h2 h3 h4 h5a h6
  rw [hd]
  simp only [finishOutcome]
  refine ⟨htrk, hld, ?_, hqid, hles, hrq, hprog⟩
  exact herr

/-- C7 witness: the amended behaviour on the concrete run whose persistence
succeeds; taken from the spec scenario for `submitQuery("photosynthesis")`. -/
theorem C7_reconciliation_success_witness :
    (submitQuery envSaveOk "photosynthesis" none QueryState.init
      TaskTracker.init).submitted.isSome = true ∧
    envSaveOk.submitQueryAndWait = Except.ok
      { queryId := some "q1", lessons := some "L", relatedQuestions := none } ∧
    rqSettled (trackerAtReconciliation envSaveOk TaskTracker.init) = false ∧
    envSaveOk.saveQueryMapping = Except.ok () ∧
    ((∃ p, getTaskByType (submitQuery envSaveOk "photosynthesis" none
          QueryState.init TaskTracker.init).tracker
        ContentTaskType.RELATED_QUESTIONS =
        some ⟨TaskStatus.FAILED, p,
          some "Related questions could not be generated"⟩) ∧
      (submitQuery envSaveOk "photosynthesis" none QueryState.init
        TaskTracker.init).state.loading = false ∧
      (submitQuery envSaveOk "photosynthesis" none QueryState.init
        TaskTracker.init).state.error = none ∧
      (submitQuery envSaveOk "photosynthesis" none QueryState.init
        TaskTracker.init).state.queryId = some "q1" ∧
      (submitQuery envSaveOk "photosynthesis" none QueryState.init
        TaskTracker.init).state.lessons = some "L" ∧
      (submitQuery envSaveOk "photosynthesis" none QueryState.init
        TaskTracker.init).state.relatedQuestions = none ∧
      (submitQuery envSaveOk "photosynthesis" none QueryState.init
        TaskTracker.init).state.progress = some "Query completed!") :=
  ⟨rfl, rfl, by decide, rfl,
    C7_reconciliation_success envSaveOk "photosynthesis" none QueryState.init
      TaskTracker.init
      { queryId := some "q1", lessons := some "L", relatedQuestions := none }
      "L" rfl rfl rfl rfl (by decide) (Or.inr rfl)⟩

/-- C6 counterexample: classification is first-match in the order "submitted",
"Lessons ready", ...; a message containing both "submitted" and
"Lessons ready" therefore takes the "submitted" branch, and the LESSONS task
is NOT marked COMPLETED, contradicting the claim's unconditional clause for
every message containing "Lessons ready". -/
theorem C6_lessons_ready_counterexample :
    strContains "Query submitted. Lessons ready" "Lessons ready" = true ∧
    (getTaskByType (progressCallback "Query submitted. Lessons ready"
        QueryState.init
        (applyCall TaskTracker.init (TrackerCall.startTracking "query-0"),
          [])).2.1
      ContentTaskType.LESSONS).map TaskRecord.status =
      some TaskStatus.IN_PROGRESS ∧
    (getTaskByType (progressCallback "Query submitted. Lessons ready"
        QueryState.init
        (applyCall TaskTracker.init (TrackerCall.startTracking "query-0"),
          [])).2.1
      ContentTaskType.LESSONS).map TaskRecord.status ≠
      some TaskStatus.COMPLETED := by
  refine ⟨by decide, by decide, by decide⟩

/-- C6 (amended): every progress-callback invocation overwrites `progress`
with the received text; for every message containing "Lessons ready" and not
containing "submitted" (the earlier keyword in the first-match order), the
LESSONS task is marked COMPLETED, RELATED_QUESTIONS progress is set to 50 and
FLASHCARDS progress is set to 10 immediately after the callback returns. -/
theorem C6_progress_classification (msg : String) (s : QueryState)
    (t : TaskTracker) (calls : List TrackerCall)
    (h1 : strContains msg "Lessons ready" = true)
    (h2 : strContains msg "submitted" = false) :
    (progressCallback msg s (t, calls)).1 = { s with progress := some msg } ∧
    getTaskByType (progressCallback msg s (t, calls)).2.1
      ContentTaskType.LESSONS = some ⟨TaskStatus.COMPLETED, 100, none⟩ ∧
    getTaskByType (progressCallback msg s (t, calls)).2.1
      ContentTaskType.RELATED_QUESTIONS =
      some ⟨TaskStatus.IN_PROGRESS, 50, none⟩ ∧
    getTaskByType (progressCallback msg s (t, calls)).2.1
      ContentTaskType.FLASHCARDS = some ⟨TaskStatus.IN_PROGRESS, 10, none⟩ ∧
    (progressCallback msg s (t, calls)).2.2 = calls ++
      [TrackerCall.markTaskCompleted ContentTaskType.LESSONS,
        TrackerCall.updateTaskProgress ContentTaskType.RELATED_QUESTIONS 50,
        TrackerCall.updateTaskProgress ContentTaskType.FLASHCARDS 10] := by
  unfold progressCallback callbackTracker
  simp only [h1, h2, Bool.false_eq_true, if_false, if_true]
  simp [emit, applyCall, setTask, getTaskByType]

/-- C6 witness: a well-formed "Lessons ready" message. -/
theorem C6_progress_classification_witness :
    strContains "Lessons ready!" "Lessons ready" = true ∧
    strContains "Lessons ready!" "submitted" = false ∧
    ((progressCallback "Lessons ready!" QueryState.init
        (TaskTracker.init, [])).1 =
      { QueryState.init with progress := some "Lessons ready!" } ∧
      getTaskByType (progressCallback "Lessons ready!" QueryState.init
          (TaskTracker.init, [])).2.1 ContentTaskType.LESSONS =
        some ⟨TaskStatus.COMPLETED, 100, none⟩ ∧
      getTaskByType (progressCallback "Lessons ready!" QueryState.init
          (TaskTracker.init, [])).2.1 ContentTaskType.RELATED_QUESTIONS =
        some ⟨TaskStatus.IN_PROGRESS, 50, none⟩ ∧
      getTaskByType (progressCallback "Lessons ready!" QueryState.init
          (TaskTracker.init, [])).2.1 ContentTaskType.FLASHCARDS =
        some ⟨TaskStatus.IN_PROGRESS, 10, none⟩ ∧
      (progressCallback "Lessons ready!" QueryState.init
          (TaskTracker.init, [])).2.2 = [] ++
        [TrackerCall.markTaskCompleted ContentTaskType.LESSONS,
          TrackerCall.updateTaskProgress ContentTaskType.RELATED_QUESTIONS 50,
          TrackerCall.updateTaskProgress ContentTaskType.FLASHCARDS 10]) :=
  ⟨by decide, by decide,
    C6_progress_classification "Lessons ready!" QueryState.init
      TaskTracker.init [] (by decide) (by decide)⟩

/-- C8: both content-fetch operations set `loading = true` and clear `error`
at entry and set `loading = false` on every exit path; on failure each
returns null and records the API-client or error message, falling back to
"Failed to get flashcards" / "Failed to get quiz" respectively; and `getQuiz`
called without a lesson index defaults the index to 0. -/
theorem C8_content_fetch_contract (env : FetchEnv) (qid : String)
    (li : Option Nat) (s s2 : ContentState) :
    (getFlashcards env qid li s).entryState =
      { loading := true, error := none } ∧
    (getFlashcards env qid li s).finalState.loading = false ∧
    (getFlashcards env qid li s).ret =
      (match flashFetch env li with
        | Except.ok v => some v
        | Except.error _ => none) ∧
    (getFlashcards env qid li s).finalState.error =
      (match flashFetch env li with
        | Except.ok _ => none
        | Except.error (JsError.apiClientError _ m) => some m
        | Except.error (JsError.generic m) => some m
        | Except.error JsError.nonError => some "Failed to get flashcards") ∧
    (getQuiz env qid li s2).entryState = { loading := true, error := none } ∧
    (getQuiz env qid li s2).finalState.loading = false ∧
    (getQuiz env qid li s2).ret =
      (match env.getQuizAt (li.getD 0) with
        | Except.ok v => some v
        | Except.error _ => none) ∧
    (getQuiz env qid li s2).finalState.error =
      (match env.getQuizAt (li.getD 0) with
        | Except.ok _ => none
        | Except.error (JsError.apiClientError _ m) => some m
        | Except.error (JsError.generic m) => some m
        | Except.error JsError.nonError => some "Failed to get quiz") ∧
    getQuiz env qid none s2 = getQuiz env qid (some 0) s2 := by
  refine ⟨?_, ?_, ?_, ?_, ?_, ?_, ?_, ?_, rfl⟩ <;>
    (first
      | (cases hf : flashFetch env li with
          | ok v => simp [getFlashcards, hf]
          | error e => cases e <;> simp [getFlashcards, hf, fetchErrMsg])
      | (cases hq : env.getQuizAt (li.getD 0) with
          | ok v => simp [getQuiz, hq]
          | error e => cases e <;> simp [getQuiz, hq, fetchErrMsg]))

/-- C9: showing "explanation" with no current topic set resumes the
lesson-progress entry with the most recent `createdAt` (starting exploration
for its topic as an internal continue-lesson transition) when at least one
entry exists, and otherwise transitions to the home view. -/
theorem C9_show_explanation_fallback (env : ShellEnv) (s : ShellState)
    (h : s.currentTopic = "") :
    (env.lessonProgressList = [] →
      handleShowExplanation env s = { s with currentState := AppState.home }) ∧
    (∀ e, mostRecentLesson env.lessonProgressList = some e →
      handleShowExplanation env s = handleStartExploration env e.topic none true s ∧
      (handleShowExplanation env s).currentState = AppState.explanation ∧
      (handleShowExplanation env s).currentTopic = e.topic ∧
      e ∈ env.lessonProgressList ∧
      ∀ x ∈ env.lessonProgressList, x.createdAt ≤ e.createdAt) := by
  have hb : (s.currentTopic == "") = true := by
    simp [h]
  constructor
  · intro hnil
    unfold handleShowExplanation
    simp only [hb, if_true, hnil]
    rfl
  · intro e he
    unfold handleShowExplanation
    simp only [hb, if_true, he]
    exact ⟨by trivial, handleStartExploration_currentState env e.topic none true s,
      handleStartExploration_currentTopic env e.topic none true s,
      mostRecentLesson_mem _ _ he, mostRecentLesson_max _ _ he⟩

/-- C9 witness: with two stored lessons the one with the larger `createdAt`
is resumed. -/
theorem C9_show_explanation_fallback_witness :
    shellStateW.currentTopic = "" ∧
    mostRecentLesson shellEnvW.lessonProgressList =
      some { topic := "topicB", queryId := "qB", createdAt := 9 } ∧
    (handleShowExplanation shellEnvW shellStateW).currentState =
      AppState.explanation ∧
    (handleShowExplanation shellEnvW shellStateW).currentTopic = "topicB" :=
  ⟨rfl, by decide,
    ((C9_show_explanation_fallback shellEnvW shellStateW rfl).2
      { topic := "topicB", queryId := "qB", createdAt := 9 } (by decide)).2.1,
    ((C9_show_explanation_fallback shellEnvW shellStateW rfl).2
      { topic := "topicB", queryId := "qB", createdAt := 9 } (by decide)).2.2.1⟩

end AIExplainer
